import Mathlib

/-!
Verification of the epoch-gated input-aggregation and fan-out dispatch core
of the simces user component (files `user_component/user_component.py` and
`user_component/user_state_message.py`), via a shallow embedding.

Python runtime values are modelled by `PyValue` (the component's payload
fields are dynamically typed), and Python exceptions by `PyError`.
Attributes that are read by the source but never assigned anywhere in the
repository (`_input_components`, `_output_delay`, `_user_state_topic_output`)
are modelled as `Option` fields: `none` means the attribute does not exist
and reading it raises `AttributeError`.
-/

/-- A dynamically typed Python value, covering the types that occur in the
component's fields and message attributes. -/
inductive PyValue where
  | int (n : Int)
  | float (q : Rat)
  | str (s : String)
  | strlist (xs : List String)
  | pynone
deriving DecidableEq, Repr

/-- `isinstance(v, int)` (Python bools do not occur in this model). -/
def PyValue.isInt : PyValue → Bool
  | .int _ => true
  | _ => false

/-- `isinstance(v, float)`; note a Python `int` is not an instance of `float`. -/
def PyValue.isFloat : PyValue → Bool
  | .float _ => true
  | _ => false

/-- `isinstance(v, str)`. -/
def PyValue.isStr : PyValue → Bool
  | .str _ => true
  | _ => false

/-- a list whose members are all `str`. -/
def PyValue.isStrList : PyValue → Bool
  | .strlist _ => true
  | _ => false

/-- The Python exceptions that the embedded code can raise. -/
inductive PyError where
  | attributeError (attr : String)
  | nameError (n : String)
  | typeError (msg : String)
  | messageValueError (msg : String)
deriving DecidableEq, Repr

/-! ## The message schema layer: `user_state_message.py` -/

/-- `UserStateMessage._check_user_id`: `isinstance(user_id, int)`. -/
def check_user_id (v : PyValue) : Bool := v.isInt

/-- `UserStateMessage._check_target_state_of_charge`:
`isinstance(target_state_of_charge, float)`.  No range restriction appears in
the source. -/
def check_target_state_of_charge (v : PyValue) : Bool := v.isFloat

/-- `UserStateMessage._check_target_time`: `isinstance(target_time, str)`. -/
def check_target_time (v : PyValue) : Bool := v.isStr

/-- The `target_state_of_charge` property setter: stores the value when the
check passes and raises `MessageValueError` otherwise. -/
def set_target_state_of_charge (v : PyValue) : Except PyError PyValue :=
  if check_target_state_of_charge v then .ok v
  else .error (.messageValueError "Invalid value for TargetStateOfCharge")

/-- A `UserStateMessage` object: the three fields declared in
`user_state_message.py` plus the fields inherited from the platform's
`AbstractResultMessage` (modelled from the spec: epoch number, ordered list
of triggering message ids, and the base identification/timestamp fields). -/
structure UserStateMessage where
  simulation_id : PyValue
  source_process_id : PyValue
  message_id : PyValue
  timestamp : PyValue
  epoch_number : PyValue
  triggering_message_ids : PyValue
  user_id : PyValue
  target_state_of_charge : PyValue
  target_time : PyValue
deriving DecidableEq, Repr

/-- The `Type` attribute check: `CLASS_MESSAGE_TYPE = "UserState"` with
`MESSAGE_TYPE_CHECK = True`. -/
def msg_type_ok (v : PyValue) : Bool := decide (v = .str "UserState")

/-- Fetch a required attribute from a JSON dictionary and validate it with
the corresponding property setter check; raising when it is missing or
invalid.  Modelled from the spec: the platform base-class constructor
assigns each attribute of `MESSAGE_ATTRIBUTES_FULL` through its property
setter. -/
def requireField (j : List (String × PyValue)) (k : String) (check : PyValue → Bool) :
    Except PyError PyValue :=
  match j.lookup k with
  | none => .error (.typeError ("missing required attribute " ++ k))
  | some v => if check v then .ok v else .error (.messageValueError ("Invalid value for " ++ k))

/-- Construction of a `UserStateMessage` from a JSON dictionary
(`cls(**json_message)`): each attribute in `MESSAGE_ATTRIBUTES_FULL` is
validated by its setter check.  The attribute names and own-field checks are
from `user_state_message.py`; the inherited attributes are modelled from the
spec. -/
def UserStateMessage.construct (j : List (String × PyValue)) : Except PyError UserStateMessage := do
  let _ ← requireField j "Type" msg_type_ok
  let simulation_id ← requireField j "SimulationId" PyValue.isStr
  let source_process_id ← requireField j "SourceProcessId" PyValue.isStr
  let message_id ← requireField j "MessageId" PyValue.isStr
  let timestamp ← requireField j "Timestamp" PyValue.isStr
  let epoch_number ← requireField j "EpochNumber" PyValue.isInt
  let triggering_message_ids ← requireField j "TriggeringMessageIds" PyValue.isStrList
  let user_id ← requireField j "UserId" check_user_id
  let target_state_of_charge ← requireField j "TargetStateOfCharge" check_target_state_of_charge
  let target_time ← requireField j "TargetTime" check_target_time
  pure ⟨simulation_id, source_process_id, message_id, timestamp, epoch_number,
        triggering_message_ids, user_id, target_state_of_charge, target_time⟩

/-- Serialization of a message to its JSON dictionary.  Modelled from the
spec: the platform serializes every attribute of `MESSAGE_ATTRIBUTES_FULL`
under its JSON attribute name, with no lossy encoding. -/
def UserStateMessage.to_json (m : UserStateMessage) : List (String × PyValue) :=
  [("Type", .str "UserState"),
   ("SimulationId", m.simulation_id),
   ("SourceProcessId", m.source_process_id),
   ("MessageId", m.message_id),
   ("Timestamp", m.timestamp),
   ("EpochNumber", m.epoch_number),
   ("TriggeringMessageIds", m.triggering_message_ids),
   ("UserId", m.user_id),
   ("TargetStateOfCharge", m.target_state_of_charge),
   ("TargetTime", m.target_time)]

/-- `UserStateMessage.from_json`: build the message from the dictionary,
returning `none` on any `TypeError`, `ValueError` or `MessageError`. -/
def UserStateMessage.from_json (j : List (String × PyValue)) : Option UserStateMessage :=
  match UserStateMessage.construct j with
  | .ok m => some m
  | .error _ => none

/-- A message is valid when every one of its attributes passes its setter
check, i.e. when it could have been constructed through the schema layer. -/
def UserStateMessage.valid (m : UserStateMessage) : Bool :=
  m.simulation_id.isStr && m.source_process_id.isStr && m.message_id.isStr &&
  m.timestamp.isStr && m.epoch_number.isInt && m.triggering_message_ids.isStrList &&
  check_user_id m.user_id && check_target_state_of_charge m.target_state_of_charge &&
  check_target_time m.target_time

/-- Equality of the inherited fields (`super().__eq__`), modelled from the
spec's schema layer. -/
def UserStateMessage.base_eq (m o : UserStateMessage) : Bool :=
  decide (m.simulation_id = o.simulation_id) &&
  decide (m.source_process_id = o.source_process_id) &&
  decide (m.message_id = o.message_id) &&
  decide (m.timestamp = o.timestamp) &&
  decide (m.epoch_number = o.epoch_number) &&
  decide (m.triggering_message_ids = o.triggering_message_ids)

/-- `UserStateMessage.__eq__`: inherited equality plus the three own
fields. -/
def UserStateMessage.msg_eq (m o : UserStateMessage) : Bool :=
  m.base_eq o && decide (m.user_id = o.user_id) &&
  decide (m.target_state_of_charge = o.target_state_of_charge) &&
  decide (m.target_time = o.target_time)

/-! ## The component: `user_component.py` -/

/-- The topic environment variables loaded in `__init__` via
`load_environmental_variables`. -/
structure TopicEnv where
  user_state_topic : String
  car_state_topic : String
  car_metadata_topic : String
deriving DecidableEq, Repr

/-- The default topic values from `__init__`. -/
def defaultTopicEnv : TopicEnv :=
  ⟨"User.UserState", "User.CarState", "Init.User.CarMetadata"⟩

/-- The attribute state of a `UserComponent` object.  Attributes that the
source reads but never assigns (`input_components`, `output_delay`,
`user_state_topic_output`) are `Option`-valued: `none` means the attribute
is missing and any access raises `AttributeError`.  The last four fields are
the epoch bookkeeping supplied by the platform base class (modelled from the
spec). -/
structure UserComponent where
  user_id : PyValue
  user_name : PyValue
  station_id : PyValue
  state_of_charge : PyValue
  car_battery_capacity : PyValue
  car_model : PyValue
  car_max_power : PyValue
  target_state_of_charge : PyValue
  target_time : PyValue
  current_input_components : Finset String
  input_components : Option (Finset String)
  output_delay : Option PyValue
  user_state_topic_base : String
  user_state_topic_output : Option String
  car_state_topic_base : String
  car_state_topic_output : String
  car_metadata_topic_base : String
  car_metadata_topic_output : String
  component_name : String
  latest_epoch : Int
  completed_epoch : Int
  triggering_message_ids : List String

/-- `UserComponent.__init__`.  It receives `input_components` and
`output_delay` as required parameters but its body never assigns
`self._input_components` or `self._output_delay`; the assignment of
`self._user_state_topic_output` is commented out in the source, while the
car-state and car-metadata output topics are derived by joining the topic
base with the component name. -/
def UserComponent.init
    (user_id user_name station_id state_of_charge car_battery_capacity
     car_model car_max_power target_state_of_charge target_time : PyValue)
    (input_components : Finset String) (output_delay : PyValue)
    (env : TopicEnv) (component_name : String) : UserComponent :=
  { user_id := user_id
    user_name := user_name
    station_id := station_id
    state_of_charge := state_of_charge
    car_battery_capacity := car_battery_capacity
    car_model := car_model
    car_max_power := car_max_power
    target_state_of_charge := target_state_of_charge
    target_time := target_time
    current_input_components := ∅
    input_components := none
    output_delay := none
    user_state_topic_base := env.user_state_topic
    user_state_topic_output := none
    car_state_topic_base := env.car_state_topic
    car_state_topic_output := env.car_state_topic ++ "." ++ component_name
    car_metadata_topic_base := env.car_metadata_topic
    car_metadata_topic_output := env.car_metadata_topic ++ "." ++ component_name
    component_name := component_name
    latest_epoch := 0
    completed_epoch := 0
    triggering_message_ids := [] }

/-- `UserComponent.clear_epoch_variables`: resets only
`self._current_input_components` to a fresh empty set. -/
def UserComponent.clear_epoch_variables (c : UserComponent) : UserComponent :=
  { c with current_input_components := ∅ }

/-- Modelled from the spec: the platform base class handles an epoch message
for a new epoch by recording the new epoch number, clearing the triggering
message id list, and calling `clear_epoch_variables`. -/
def UserComponent.epoch_start (c : UserComponent) (e : Int) : UserComponent :=
  UserComponent.clear_epoch_variables
    { c with latest_epoch := e, triggering_message_ids := [] }

/-- `UserComponent.all_messages_received_for_epoch`:
`return self._input_components == self._current_input_components`.
Reading `self._input_components` raises `AttributeError` when the attribute
does not exist. -/
def UserComponent.all_messages_received_for_epoch (c : UserComponent) :
    Except PyError Bool :=
  match c.input_components with
  | none => .error (.attributeError "_input_components")
  | some req => .ok (decide (req = c.current_input_components))

/-- The three outbound message kinds of the fan-out. -/
inductive OutKind where
  | carMetadata
  | userState
  | carState
deriving DecidableEq, Repr

/-- A record of one publish call to the bus client: which message kind, to
which topic, stamped with which epoch number and triggering id snapshot. -/
structure Published where
  kind : OutKind
  topic : String
  epoch : Int
  triggering_ids : List String
deriving DecidableEq, Repr

/-- The outcome of one `_send_*_message` call (or of the whole
`process_epoch` fan-out): the publishes that happened, the error statuses
sent via `send_error_message`, and an uncaught exception if one was
raised. -/
structure SendResult where
  published : List Published
  error_statuses : List String
  raised : Option PyError
deriving DecidableEq, Repr

/-- Schema validation of a `UserStateMessage` built by the message generator
from the component's fields (the generator itself supplies well-formed epoch
number and triggering ids). -/
def UserComponent.user_state_fields_valid (c : UserComponent) : Bool :=
  check_user_id c.user_id &&
  check_target_state_of_charge c.target_state_of_charge &&
  check_target_time c.target_time

/-- Modelled from the spec: `car_state_message.py` is not available;
its schema validates the kind-specific payload fields (numeric identifiers
and state-of-charge as a floating value). -/
def UserComponent.car_state_fields_valid (c : UserComponent) : Bool :=
  c.user_id.isInt && c.station_id.isInt && c.state_of_charge.isFloat

/-- Modelled from the spec: `car_metadata_message.py` is not available;
its schema validates the kind-specific payload fields (numeric identifiers,
state-of-charge as a floating value, free-text model and name fields). -/
def UserComponent.car_metadata_fields_valid (c : UserComponent) : Bool :=
  c.user_id.isInt && c.user_name.isStr && c.station_id.isInt &&
  c.state_of_charge.isFloat && c.car_battery_capacity.isFloat &&
  c.car_model.isStr && c.car_max_power.isFloat

/-- `UserComponent._send_user_state_message`: construct the message (a
`ValueError`/`TypeError`/`MessageError` is caught and reported through
`send_error_message`), then publish it to `self._user_state_topic_output` —
an attribute whose assignment is commented out in `__init__`, so reading it
raises an `AttributeError` that the `except` clause does not catch. -/
def UserComponent.send_user_state_message (c : UserComponent) : SendResult :=
  if c.user_state_fields_valid then
    match c.user_state_topic_output with
    | none => ⟨[], [], some (.attributeError "_user_state_topic_output")⟩
    | some topic =>
        ⟨[⟨.userState, topic, c.latest_epoch, c.triggering_message_ids⟩], [], none⟩
  else ⟨[], ["Internal error when creating result message."], none⟩

/-- `UserComponent._send_car_state_message`: construct and publish to
`self._car_state_topic_output`; construction errors are caught and reported
through `send_error_message`. -/
def UserComponent.send_car_state_message (c : UserComponent) : SendResult :=
  if c.car_state_fields_valid then
    ⟨[⟨.carState, c.car_state_topic_output, c.latest_epoch, c.triggering_message_ids⟩], [], none⟩
  else ⟨[], ["Internal error when creating result message."], none⟩

/-- `UserComponent._send_car_metadata_message`: construct and publish to
`self._car_metadata_topic_output`; construction errors are caught and
reported through `send_error_message`. -/
def UserComponent.send_car_metadata_message (c : UserComponent) : SendResult :=
  if c.car_metadata_fields_valid then
    ⟨[⟨.carMetadata, c.car_metadata_topic_output, c.latest_epoch, c.triggering_message_ids⟩],
     [], none⟩
  else ⟨[], ["Internal error when creating result message."], none⟩

/-- `UserComponent.process_epoch`: first `await asyncio.sleep(self._output_delay)`
— reading `self._output_delay` raises `AttributeError` when the attribute
does not exist — then the three sends in source order (car metadata, user
state, car state); an uncaught exception in one send aborts the remaining
sends; on full completion it returns `True`. -/
def UserComponent.process_epoch (c : UserComponent) : SendResult × Except PyError Bool :=
  match c.output_delay with
  | none =>
      (⟨[], [], some (.attributeError "_output_delay")⟩, .error (.attributeError "_output_delay"))
  | some _ =>
      let r1 := c.send_car_metadata_message
      match r1.raised with
      | some e => (r1, .error e)
      | none =>
          let r2 := c.send_user_state_message
          match r2.raised with
          | some e =>
              (⟨r1.published ++ r2.published, r1.error_statuses ++ r2.error_statuses, some e⟩,
               .error e)
          | none =>
              let r3 := c.send_car_state_message
              match r3.raised with
              | some e =>
                  (⟨r1.published ++ r2.published ++ r3.published,
                    r1.error_statuses ++ r2.error_statuses ++ r3.error_statuses, some e⟩,
                   .error e)
              | none =>
                  (⟨r1.published ++ r2.published ++ r3.published,
                    r1.error_statuses ++ r2.error_statuses ++ r3.error_statuses, none⟩,
                   .ok true)

/-- The result of one handler (or `start_epoch`) step: the new component
state, the publishes and error statuses it produced, how many times
`process_epoch` was invoked, and an uncaught exception if one was raised. -/
structure StepResult where
  comp : UserComponent
  published : List Published
  error_statuses : List String
  invocations : Nat
  raised : Option PyError

/-- Modelled from the spec: the platform base class `start_epoch` invokes the
computation step (`process_epoch`) only when the current epoch has not
already been completed and `all_messages_received_for_epoch` holds; on
success it records the epoch as completed, which blocks any further
invocation for the same epoch number. -/
def UserComponent.start_epoch (c : UserComponent) : StepResult :=
  if c.completed_epoch = c.latest_epoch then ⟨c, [], [], 0, none⟩
  else
    match c.all_messages_received_for_epoch with
    | .error e => ⟨c, [], [], 0, some e⟩
    | .ok false => ⟨c, [], [], 0, none⟩
    | .ok true =>
        let (r, res) := c.process_epoch
        match res with
        | .ok true =>
            ⟨{ c with completed_epoch := c.latest_epoch }, r.published, r.error_statuses, 1, none⟩
        | .ok false => ⟨c, r.published, r.error_statuses, 1, none⟩
        | .error e => ⟨c, r.published, r.error_statuses, 1, some e⟩

/-- An inbound `UserStateMessage` as seen by the handler: its source process
id and its message id. -/
structure InMessage where
  source_process_id : String
  message_id : String
deriving DecidableEq, Repr

/-- An inbound message delivered to `general_message_handler`: either a
`UserStateMessage` or a message of any other type. -/
inductive Inbound where
  | userState (m : InMessage)
  | unknown
deriving DecidableEq, Repr

/-- The state mutation of the handler's registration branch: add the source
to `self._current_input_components` and append the message id to
`self._triggering_message_ids`. -/
def UserComponent.register (c : UserComponent) (m : InMessage) : UserComponent :=
  { c with
    current_input_components := insert m.source_process_id c.current_input_components,
    triggering_message_ids := c.triggering_message_ids ++ [m.message_id] }

/-- `UserComponent.general_message_handler`: a non-`UserStateMessage` is only
logged; a `UserStateMessage` is checked against `self._input_components`
(reading it raises `AttributeError` when the attribute does not exist): a
source not in the input components, or already seen this epoch, is ignored;
otherwise the source is registered, the message id appended to the
triggering ids, and `start_epoch` is called. -/
def UserComponent.general_message_handler (c : UserComponent) (msg : Inbound) : StepResult :=
  match msg with
  | .unknown => ⟨c, [], [], 0, none⟩
  | .userState m =>
      match c.input_components with
      | none => ⟨c, [], [], 0, some (.attributeError "_input_components")⟩
      | some req =>
          if m.source_process_id ∈ req then
            if m.source_process_id ∈ c.current_input_components then ⟨c, [], [], 0, none⟩
            else UserComponent.start_epoch (c.register m)
          else ⟨c, [], [], 0, none⟩

/-- The accumulated outcome of delivering a sequence of inbound messages. -/
structure RunResult where
  comp : UserComponent
  published : List Published
  invocations : Nat

/-- Deliver a sequence of inbound messages to `general_message_handler` one
at a time; an exception raised by the handler is logged by the platform and
does not stop the delivery of later messages (state mutations made before
the raise persist). -/
def run_messages : UserComponent → List Inbound → RunResult
  | c, [] => ⟨c, [], 0⟩
  | c, m :: rest =>
      let r := c.general_message_handler m
      let r2 := run_messages r.comp rest
      ⟨r2.comp, r.published ++ r2.published, r.invocations + r2.invocations⟩

/-! ## `create_component` and `start_component` -/

/-- The values produced by `load_environmental_variables` in
`create_component` (with their defaults when the environment does not set
them); the loading machinery itself is the platform's and is modelled as
given. -/
structure EnvVals where
  user_id : Int
  user_name : String
  station_id : Int
  state_of_charge : Rat
  car_battery_capacity : Rat
  car_model : String
  car_max_power : Rat
  target_state_of_charge : Rat
  target_time : String
  input_components_value : String
  output_delay : Rat
deriving DecidableEq, Repr

/-- The local names defined in the body of `create_component` before the
final `return` statement. -/
def create_component_locals : List String :=
  ["environment_variables", "user_id", "user_name", "station_id", "state_of_charge",
   "car_battery_capacity", "car_model", "car_max_power", "target_state_of_charge",
   "target_time", "input_components", "output_delay"]

/-- One keyword argument of the constructor call in `create_component`: the
parameter name and the local name whose value is passed. -/
structure KwArg where
  param : String
  expr : String
deriving DecidableEq, Repr

/-- The keyword arguments of the `UserComponent(...)` call at the end of
`create_component`, exactly as written in the source: the value passed for
`target_state_of_charge` is the name `ctarget_state_of_charge`, and no
argument is passed for `input_components` or `output_delay`. -/
def create_component_call_kwargs : List KwArg :=
  [⟨"user_id", "user_id"⟩,
   ⟨"user_name", "user_name"⟩,
   ⟨"station_id", "station_id"⟩,
   ⟨"state_of_charge", "state_of_charge"⟩,
   ⟨"car_battery_capacity", "car_battery_capacity"⟩,
   ⟨"car_model", "car_model"⟩,
   ⟨"car_max_power", "car_max_power"⟩,
   ⟨"target_state_of_charge", "ctarget_state_of_charge"⟩,
   ⟨"target_time", "target_time"⟩]

/-- The required parameters of `UserComponent.__init__` (all eleven have no
default value). -/
def user_component_required_params : List String :=
  ["user_id", "user_name", "station_id", "state_of_charge", "car_battery_capacity",
   "car_model", "car_max_power", "target_state_of_charge", "target_time",
   "input_components", "output_delay"]

/-- `create_component`: after loading the environment values, the `return`
statement evaluates its keyword-argument expressions left to right — a name
not bound in the local namespace raises `NameError` — and only then would
Python check that every required parameter of `UserComponent.__init__` is
supplied, raising `TypeError` otherwise. -/
def create_component (vals : EnvVals) : Except PyError EnvVals :=
  match create_component_call_kwargs.find?
      (fun a => !(create_component_locals.contains a.expr)) with
  | some a => .error (.nameError a.expr)
  | none =>
      match user_component_required_params.find?
          (fun p => !(create_component_call_kwargs.any (fun a => a.param == p))) with
      | some p => .error (.typeError ("missing required argument: " ++ p))
      | none => .ok vals

/-- The observable outcome of `start_component`. -/
inductive StartOutcome where
  | started
  | logged_and_exited (e : PyError)
deriving DecidableEq, Repr

/-- `start_component`: calls `create_component` inside a
`try ... except BaseException` block; on an exception it logs it and the
function returns (the component never starts). -/
def start_component (vals : EnvVals) : StartOutcome :=
  match create_component vals with
  | .error e => .logged_and_exited e
  | .ok _ => .started

/-! ## Helper lemmas -/

theorem start_epoch_preserves (c : UserComponent) :
    (c.start_epoch).comp.input_components = c.input_components ∧
    (c.start_epoch).comp.current_input_components = c.current_input_components := by
  unfold UserComponent.start_epoch
  repeat' split
  all_goals exact ⟨rfl, rfl⟩

theorem start_epoch_invocations_le_one (c : UserComponent) :
    (c.start_epoch).invocations ≤ 1 := by
  unfold UserComponent.start_epoch
  repeat' split
  all_goals simp

theorem start_epoch_invoked_ready (c : UserComponent)
    (h : (c.start_epoch).invocations ≠ 0) :
    ∃ req, c.input_components = some req ∧ c.current_input_components = req := by
  unfold UserComponent.start_epoch at h
  by_cases hc : c.completed_epoch = c.latest_epoch
  · simp [hc] at h
  · simp only [hc, if_false] at h
    revert h
    unfold UserComponent.all_messages_received_for_epoch
    match hin : c.input_components with
    | none => intro h; simp at h
    | some req =>
      by_cases hr : req = c.current_input_components
      · intro _; exact ⟨req, rfl, hr.symm⟩
      · simp [hr]

theorem register_input_components (c : UserComponent) (m : InMessage) :
    (c.register m).input_components = c.input_components := rfl

theorem handler_invocations_le_one (c : UserComponent) (m : Inbound) :
    (c.general_message_handler m).invocations ≤ 1 := by
  unfold UserComponent.general_message_handler
  match m with
  | .unknown => simp
  | .userState im =>
    match c.input_components with
    | none => simp
    | some req =>
      by_cases h1 : im.source_process_id ∈ req
      · by_cases h2 : im.source_process_id ∈ c.current_input_components
        · simp [h1, h2]
        · simp [h1, h2, start_epoch_invocations_le_one]
      · simp [h1]

theorem handler_invoked_saturated (c : UserComponent) (m : Inbound)
    (h : (c.general_message_handler m).invocations ≠ 0) :
    ∃ req, (c.general_message_handler m).comp.input_components = some req ∧
      (c.general_message_handler m).comp.current_input_components = req := by
  match m with
  | .unknown => simp [UserComponent.general_message_handler] at h
  | .userState im =>
    rcases hin : c.input_components with _ | req
    · simp [UserComponent.general_message_handler, hin] at h
    · by_cases h1 : im.source_process_id ∈ req
      · by_cases h2 : im.source_process_id ∈ c.current_input_components
        · simp [UserComponent.general_message_handler, hin, h1, h2] at h
        · simp only [UserComponent.general_message_handler, hin, h1, if_true, h2,
            if_false] at h ⊢
          obtain ⟨req', hreq', hcur'⟩ := start_epoch_invoked_ready _ h
          obtain ⟨p1, p2⟩ := start_epoch_preserves (c.register im)
          exact ⟨req', by rw [p1]; exact hreq', by rw [p2]; exact hcur'⟩
      · simp [UserComponent.general_message_handler, hin, h1] at h

theorem handler_saturated_inert (c : UserComponent) (m : Inbound) (req : Finset String)
    (hin : c.input_components = some req) (hcur : c.current_input_components = req) :
    c.general_message_handler m = ⟨c, [], [], 0, none⟩ := by
  unfold UserComponent.general_message_handler
  match m with
  | .unknown => rfl
  | .userState im =>
    rw [hin]
    by_cases h1 : im.source_process_id ∈ req
    · have h2 : im.source_process_id ∈ c.current_input_components := by rw [hcur]; exact h1
      simp [h1, h2]
    · simp [h1]

theorem run_saturated_no_invocations (msgs : List Inbound) (c : UserComponent)
    (req : Finset String) (hin : c.input_components = some req)
    (hcur : c.current_input_components = req) :
    (run_messages c msgs).invocations = 0 := by
  induction msgs generalizing c with
  | nil => rfl
  | cons m rest ih =>
    unfold run_messages
    rw [handler_saturated_inert c m req hin hcur]
    simpa using ih c hin hcur

theorem run_invocations_le_one (msgs : List Inbound) (c : UserComponent) :
    (run_messages c msgs).invocations ≤ 1 := by
  induction msgs generalizing c with
  | nil => exact Nat.zero_le 1
  | cons m rest ih =>
    unfold run_messages
    by_cases h : (c.general_message_handler m).invocations = 0
    · simpa [h] using ih (c.general_message_handler m).comp
    · obtain ⟨req, hin, hcur⟩ := handler_invoked_saturated c m h
      have h0 := run_saturated_no_invocations rest (c.general_message_handler m).comp req hin hcur
      simp only [h0, Nat.add_zero]
      exact handler_invocations_le_one c m

theorem construct_to_json (m : UserStateMessage) (h : m.valid = true) :
    UserStateMessage.construct m.to_json = .ok m := by
  simp only [UserStateMessage.valid, Bool.and_eq_true] at h
  obtain ⟨⟨⟨⟨⟨⟨⟨⟨h1, h2⟩, h3⟩, h4⟩, h5⟩, h6⟩, h7⟩, h8⟩, h9⟩ := h
  have l0 : requireField m.to_json "Type" msg_type_ok = .ok (.str "UserState") := rfl
  have l1 : requireField m.to_json "SimulationId" PyValue.isStr = .ok m.simulation_id := by
    simp only [requireField, show m.to_json.lookup "SimulationId" = some m.simulation_id from rfl,
      h1, if_true]
  have l2 : requireField m.to_json "SourceProcessId" PyValue.isStr = .ok m.source_process_id := by
    simp only [requireField,
      show m.to_json.lookup "SourceProcessId" = some m.source_process_id from rfl, h2, if_true]
  have l3 : requireField m.to_json "MessageId" PyValue.isStr = .ok m.message_id := by
    simp only [requireField, show m.to_json.lookup "MessageId" = some m.message_id from rfl,
      h3, if_true]
  have l4 : requireField m.to_json "Timestamp" PyValue.isStr = .ok m.timestamp := by
    simp only [requireField, show m.to_json.lookup "Timestamp" = some m.timestamp from rfl,
      h4, if_true]
  have l5 : requireField m.to_json "EpochNumber" PyValue.isInt = .ok m.epoch_number := by
    simp only [requireField, show m.to_json.lookup "EpochNumber" = some m.epoch_number from rfl,
      h5, if_true]
  have l6 : requireField m.to_json "TriggeringMessageIds" PyValue.isStrList =
      .ok m.triggering_message_ids := by
    simp only [requireField,
      show m.to_json.lookup "TriggeringMessageIds" = some m.triggering_message_ids from rfl,
      h6, if_true]
  have l7 : requireField m.to_json "UserId" check_user_id = .ok m.user_id := by
    simp only [requireField, show m.to_json.lookup "UserId" = some m.user_id from rfl,
      h7, if_true]
  have l8 : requireField m.to_json "TargetStateOfCharge" check_target_state_of_charge =
      .ok m.target_state_of_charge := by
    simp only [requireField,
      show m.to_json.lookup "TargetStateOfCharge" = some m.target_state_of_charge from rfl,
      h8, if_true]
  have l9 : requireField m.to_json "TargetTime" check_target_time = .ok m.target_time := by
    simp only [requireField, show m.to_json.lookup "TargetTime" = some m.target_time from rfl,
      h9, if_true]
  simp only [UserStateMessage.construct, l0, l1, l2, l3, l4, l5, l6, l7, l8, l9,
    bind, Except.bind, pure, Except.pure]

theorem msg_eq_refl (m : UserStateMessage) : m.msg_eq m = true := by
  simp [UserStateMessage.msg_eq, UserStateMessage.base_eq]

/-- A concretely constructed component, used in the closed evaluations: one
required input component `"Station1"`, payload fields of the types the
message schemas expect. -/
def sample_component : UserComponent :=
  UserComponent.init (.int 1) (.str "user") (.int 2) (.float 50) (.float 80)
    (.str "modelX") (.float 11) (.float 90) (.str "2026-01-01T18:00:00Z")
    {"Station1"} (.float (1/10)) defaultTopicEnv "User1"

/-! ## The claims -/

/-- C1: for every epoch and every sequence of inbound messages delivered to
`general_message_handler` during that epoch, the computation step
(`start_epoch` leading to `process_epoch`) is invoked at most once, no
matter how many duplicate or late qualifying messages arrive after the
epoch becomes ready. -/
theorem computation_invoked_at_most_once_per_epoch
    (c : UserComponent) (e : Int) (msgs : List Inbound) :
    (run_messages (c.epoch_start e) msgs).invocations ≤ 1 :=
  run_invocations_le_one msgs (c.epoch_start e)

/-- C2: on every constructed component (for all constructor arguments),
`all_messages_received_for_epoch` does not return the set-equality boolean
the claim describes: it raises `AttributeError`, because `__init__` never
assigns `self._input_components`. -/
theorem all_messages_received_raises_attribute_error
    (uid una sid soc cap mdl pow tgt ttm : PyValue) (ic : Finset String)
    (od : PyValue) (env : TopicEnv) (name : String) :
    (UserComponent.init uid una sid soc cap mdl pow tgt ttm ic od env name).all_messages_received_for_epoch
      = .error (.attributeError "_input_components") := rfl

/-- C3: on every constructed component, `general_message_handler` raises
`AttributeError` for every inbound `UserStateMessage` — qualifying,
non-required or duplicate alike — before registering anything, because it
reads the never-assigned `self._input_components`; the state is left
unchanged but an error is raised, contrary to the claim. -/
theorem handler_raises_on_every_user_state_message
    (uid una sid soc cap mdl pow tgt ttm : PyValue) (ic : Finset String)
    (od : PyValue) (env : TopicEnv) (name : String) (m : InMessage) :
    (UserComponent.init uid una sid soc cap mdl pow tgt ttm ic od env name).general_message_handler
        (.userState m)
      = ⟨UserComponent.init uid una sid soc cap mdl pow tgt ttm ic od env name, [], [], 0,
         some (.attributeError "_input_components")⟩ := rfl

/-- C4: on every constructed component, `process_epoch` publishes nothing
and never returns `True`: it raises `AttributeError` on the never-assigned
`self._output_delay` before any of the three sends. -/
theorem process_epoch_raises_before_any_publish
    (uid una sid soc cap mdl pow tgt ttm : PyValue) (ic : Finset String)
    (od : PyValue) (env : TopicEnv) (name : String) :
    (UserComponent.init uid una sid soc cap mdl pow tgt ttm ic od env name).process_epoch
      = (⟨[], [], some (.attributeError "_output_delay")⟩,
         .error (.attributeError "_output_delay")) := rfl

/-- C5: the fan-out is not failure-isolated as claimed: on the constructed
component no output kind is even attempted (`process_epoch` raises on
`self._output_delay` first), and even with `_output_delay` present, a
successfully constructed user-state message makes the fan-out abort with an
uncaught `AttributeError` on `self._user_state_topic_output` after the
car-metadata publish, so the car-state kind is never attempted. -/
theorem fan_out_aborts_instead_of_proceeding_independently :
    sample_component.process_epoch
      = (⟨[], [], some (.attributeError "_output_delay")⟩,
         .error (.attributeError "_output_delay")) ∧
    ({ sample_component with output_delay := some (.float (1/10)) }).process_epoch
      = (⟨[⟨.carMetadata, "Init.User.CarMetadata.User1", 0, []⟩], [],
          some (.attributeError "_user_state_topic_output")⟩,
         .error (.attributeError "_user_state_topic_output")) := ⟨rfl, rfl⟩

/-- C6: of the three output topics, the car-state and car-metadata topics
are derived as the configured base joined with the component name, but the
user-state topic attribute is never assigned (its derivation is commented
out in `__init__`), so the user target-state publish has no topic and
raises `AttributeError` instead. -/
theorem user_state_topic_never_derived
    (uid una sid soc cap mdl pow tgt ttm : PyValue) (ic : Finset String)
    (od : PyValue) (env : TopicEnv) (name : String) :
    (UserComponent.init uid una sid soc cap mdl pow tgt ttm ic od env name).user_state_topic_output
      = none ∧
    (UserComponent.init uid una sid soc cap mdl pow tgt ttm ic od env name).car_state_topic_output
      = env.car_state_topic ++ "." ++ name ∧
    (UserComponent.init uid una sid soc cap mdl pow tgt ttm ic od env name).car_metadata_topic_output
      = env.car_metadata_topic ++ "." ++ name := ⟨rfl, rfl, rfl⟩

/-- C7: the `input_components` constructor argument is dropped: for every
choice of constructor arguments the attribute `self._input_components` does
not exist on the constructed component (and no subsequent operation creates
it — `clear_epoch_variables` and the message handler leave it unchanged),
so the RequiredSources set used by readiness checks never equals the
argument. -/
theorem input_components_argument_never_stored
    (uid una sid soc cap mdl pow tgt ttm : PyValue) (ic : Finset String)
    (od : PyValue) (env : TopicEnv) (name : String) :
    (UserComponent.init uid una sid soc cap mdl pow tgt ttm ic od env name).input_components = none ∧
    (∀ c : UserComponent, (c.clear_epoch_variables).input_components = c.input_components) ∧
    (∀ (c : UserComponent) (m : Inbound),
      ((c.general_message_handler m).comp).input_components = c.input_components) := by
  refine ⟨rfl, fun c => rfl, fun c m => ?_⟩
  match m with
  | .unknown => rfl
  | .userState im =>
    rcases hin : c.input_components with _ | req
    · simp [UserComponent.general_message_handler, hin]
    · by_cases h1 : im.source_process_id ∈ req
      · by_cases h2 : im.source_process_id ∈ c.current_input_components
        · simp [UserComponent.general_message_handler, hin, h1, h2]
        · simp only [UserComponent.general_message_handler, hin, h1, if_true, h2, if_false]
          rw [(start_epoch_preserves (c.register im)).1, register_input_components]
          exact hin
      · simp [UserComponent.general_message_handler, hin, h1]

/-- C8 counterexample: the `target_state_of_charge` setter accepts floating
values below and above any bounded state-of-charge range (here −1 and 101,
both outside a 0–100 percentage range), so no range restriction is
enforced, contrary to the claim. -/
theorem target_soc_out_of_range_accepted :
    set_target_state_of_charge (.float (-1)) = .ok (.float (-1)) ∧
    set_target_state_of_charge (.float 101) = .ok (.float 101) := ⟨rfl, rfl⟩

/-- C8 (amended): assigning `v` to `target_state_of_charge` succeeds exactly
when `v` is a Python float — with no range restriction — and raises
`MessageValueError` for every non-float value. -/
theorem target_soc_setter_accepts_exactly_floats (v : PyValue) :
    (set_target_state_of_charge v = .ok v ↔ v.isFloat = true) ∧
    (v.isFloat = false →
      set_target_state_of_charge v =
        .error (.messageValueError "Invalid value for TargetStateOfCharge")) := by
  by_cases hf : v.isFloat = true
  · simp [set_target_state_of_charge, check_target_state_of_charge, hf]
  · simp only [Bool.not_eq_true] at hf
    simp [set_target_state_of_charge, check_target_state_of_charge, hf]

/-- C8 witness: the amended theorem at a float and at an int. -/
theorem target_soc_setter_accepts_exactly_floats_witness :
    set_target_state_of_charge (.float 90) = .ok (.float 90) ∧
    set_target_state_of_charge (.int 90) =
      .error (.messageValueError "Invalid value for TargetStateOfCharge") :=
  ⟨(target_soc_setter_accepts_exactly_floats (.float 90)).1.mpr rfl,
   (target_soc_setter_accepts_exactly_floats (.int 90)).2 rfl⟩

/-- C9: every validly constructed `UserStateMessage`, serialized and parsed
back through `from_json`, yields the same message, equal under `__eq__`. -/
theorem user_state_message_round_trip (m : UserStateMessage) (h : m.valid = true) :
    UserStateMessage.from_json m.to_json = some m ∧ m.msg_eq m = true :=
  ⟨by rw [UserStateMessage.from_json, construct_to_json m h], msg_eq_refl m⟩

/-- A concrete validly constructed `UserStateMessage`. -/
def sample_message : UserStateMessage :=
  ⟨.str "sim1", .str "User1", .str "User1-7-1", .str "2026-01-01T00:00:00Z",
   .int 7, .strlist ["m1"], .int 3, .float 90, .str "18:00"⟩

/-- C9 witness: the round trip at a concrete valid message. -/
theorem user_state_message_round_trip_witness :
    sample_message.valid = true ∧
    (UserStateMessage.from_json sample_message.to_json = some sample_message ∧
     sample_message.msg_eq sample_message = true) :=
  ⟨by decide, user_state_message_round_trip sample_message (by decide)⟩

/-- C10: for every environment configuration, `create_component` raises
`NameError` on the undefined name `ctarget_state_of_charge` while
evaluating the constructor call's arguments (before Python would even
report the missing required `input_components` and `output_delay`
arguments), so it never returns a component, and `start_component` catches
the error, logs it and exits without starting. -/
theorem create_component_always_raises (vals : EnvVals) :
    create_component vals = .error (.nameError "ctarget_state_of_charge") ∧
    start_component vals = .logged_and_exited (.nameError "ctarget_state_of_charge") :=
  ⟨rfl, rfl⟩
